import Mathlib

/-!
Shallow embedding of `packages/syft/src/syft/core/tensor/autodp/ndim_entity_phi.py`.

Payloads, bound envelopes and plain numpy arrays are modelled as flat `List ℤ`
(the fixed-point numeric representation is declared an opaque payload-tensor
capability by the spec, and its arithmetic is ordinary elementwise arithmetic).
numpy elementwise operators are modelled by `bcastZip`, the 1-D fragment of
numpy broadcasting.  Classes of this repository that are referenced by
`ndim_entity_phi.py` but whose files are not under `src/`
(`DataSubjectList`, `GammaTensor`, `MPCTensor`, `lazyrepeatarray`,
`FixedPrecisionTensor`) are modelled from the spec where their behaviour is
needed; each such definition carries a doc comment starting
`Modelled from the spec:`.
-/

/-- Elementwise combination of two 1-D numpy arrays: equal lengths combine
pointwise, a length-1 operand broadcasts against the other. -/
def bcastZip (f : ℤ → ℤ → ℤ) (a b : List ℤ) : List ℤ :=
  if a.length = b.length then List.zipWith f a b
  else if b.length = 1 then a.map (fun x => f x (b.headD 0))
  else if a.length = 1 then b.map (fun y => f (a.headD 0) y)
  else List.zipWith f a b

/-- Model of `np.minimum.reduce([a, b, c, d])`: the elementwise minimum of
four arrays, folded left as numpy does. -/
def minReduce4 (a b c d : List ℤ) : List ℤ :=
  bcastZip min (bcastZip min (bcastZip min a b) c) d

/-- Model of `np.maximum.reduce([a, b, c, d])` (equivalently
`np.max([...], axis=0)`): the elementwise maximum of four arrays. -/
def maxReduce4 (a b c d : List ℤ) : List ℤ :=
  bcastZip max (bcastZip max (bcastZip max a b) c) d

/-- Model of numpy 1-D `dot` / `matmul` between two vectors: the inner
product, as a rank-0 (singleton) result. -/
def dot1d (a b : List ℤ) : List ℤ :=
  [(List.zipWith (fun x y => x * y) a b).sum]

/-- Model of `is_broadcastable` restricted to 1-D shapes: lengths are
broadcast-compatible when they agree or either is 1. -/
def is_broadcastable1 (m n : ℕ) : Bool :=
  m == n || m == 1 || n == 1

/-- Provenance set: `DataSubjectList` from `data_subject_list.py`, carried by
every `NDimEntityPhiTensor` as `entities`.  `one_hot_lookup` is the
deduplicated subject-id list, `data_subjects_indexed` maps each element
position to an index into it. -/
structure DataSubjectList where
  one_hot_lookup : List String
  data_subjects_indexed : List ℕ
deriving DecidableEq, Repr

/-- Modelled from the spec: `DataSubjectList.__eq__` (`data_subject_list.py`
is not under `src/`).  Spec 4.2: equality of provenance sets is exact list
equality of the `subjects` lists. -/
def DataSubjectList.eqSubjects (d1 d2 : DataSubjectList) : Bool :=
  d1.one_hot_lookup == d2.one_hot_lookup

/-- Modelled from the spec: `DataSubjectList.from_objs` applied to a single
subject id (`data_subject_list.py` is not under `src/`): a provenance set
whose subjects list is exactly that id, its one element indexed to it. -/
def DataSubjectList.from_objs1 (s : String) : DataSubjectList :=
  ⟨[s], [0]⟩

/-- Modelled from the spec: `DataSubjectList.sum` (`data_subject_list.py` is
not under `src/`); the spec only requires the multi-subject reduction to keep
carrying the contributing subjects, so the subjects are kept unchanged. -/
def DataSubjectList.sumSubjects (d : DataSubjectList) : DataSubjectList :=
  d

/-- DisclosureTensor: `GammaTensor` from `gamma_tensor.py`, as constructed by
`NDimEntityPhiTensor.create_gamma` and `sum`.  `id` models the fresh opaque
UID the real class generates at construction. -/
structure GammaTensor where
  value : List ℤ
  data_subjects : DataSubjectList
  min_val : List ℤ
  max_val : List ℤ
  fpt_values : Option (List ℤ)
  id : ℕ
deriving DecidableEq, Repr

/-- Modelled from the spec: `GammaTensor.__add__` (`gamma_tensor.py` is not
under `src/`).  Spec 4.2/4.3: combining two DisclosureTensors yields a
DisclosureTensor over the union of their subjects with interval-added
bounds. -/
def GammaTensor.add (g1 g2 : GammaTensor) : GammaTensor :=
  { value := bcastZip (fun x y => x + y) g1.value g2.value
    data_subjects :=
      ⟨g1.data_subjects.one_hot_lookup ++
        g2.data_subjects.one_hot_lookup.filter
          (fun s => !(g1.data_subjects.one_hot_lookup.contains s)),
       g1.data_subjects.data_subjects_indexed⟩
    min_val := bcastZip (fun x y => x + y) g1.min_val g2.min_val
    max_val := bcastZip (fun x y => x + y) g1.max_val g2.max_val
    fpt_values := none
    id := 0 }

/-- Python exception values raised (or, for two buggy operators, returned) by
the tensor operators. -/
inductive PyError where
  | notImplementedError
  | valueError (msg : String)
  | exc (msg : String)
deriving DecidableEq, Repr

/-- PrivateTensor: `NDimEntityPhiTensor`.  `child` is the payload (the
`FixedPrecisionTensor` chain, modelled as its numeric content), `min_vals` /
`max_vals` the bound envelopes (`lazyrepeatarray` data), `entities` the
provenance set. -/
structure NDimEntityPhiTensor where
  child : List ℤ
  min_vals : List ℤ
  max_vals : List ℤ
  entities : DataSubjectList
deriving DecidableEq, Repr

/-- Operand kinds accepted (or rejected) by the `NDimEntityPhiTensor`
operators: another PhiTensor, a GammaTensor, an acceptable simple type
(scalar or plain array), or an unsupported object such as a string. -/
inductive Operand where
  | phi (t : NDimEntityPhiTensor)
  | gammaT (g : GammaTensor)
  | scalar (c : ℤ)
  | array (xs : List ℤ)
  | unsupported (desc : String)
deriving DecidableEq, Repr

/-- Outcome of an operator call: a PhiTensor, a GammaTensor, a raised
exception, or a Python exception class returned as a value (the
`return NotImplementedError` lines in `__mul__` and `__lt__`). -/
inductive OpOutcome where
  | phi (t : NDimEntityPhiTensor)
  | gamma (g : GammaTensor)
  | raised (e : PyError)
  | returnedValue (e : PyError)
deriving DecidableEq, Repr

/-- Embedding of `NDimEntityPhiTensor.create_gamma` (lines 668-684): wraps the
payload, bounds and provenance into a `GammaTensor`, keeping a reference to
the fixed-point payload in `fpt_values`.  The fresh UID the real
`GammaTensor` generates is external; it is modelled as an opaque token. -/
def NDimEntityPhiTensor.create_gamma (self : NDimEntityPhiTensor) : GammaTensor :=
  { value := self.child
    data_subjects := self.entities
    min_val := self.min_vals
    max_val := self.max_vals
    fpt_values := some self.child
    id := 0 }

/-- Embedding of `NDimEntityPhiTensor.__add__` (lines 772-803).  Unequal
provenance promotes both operands (`self.gamma + other.gamma`); equal
provenance adds payload and both envelopes elementwise; simple types add
into payload and both envelopes; a GammaTensor operand promotes `self`;
anything else raises `NotImplementedError`. -/
def NDimEntityPhiTensor.add (self : NDimEntityPhiTensor) (other : Operand) : OpOutcome :=
  match other with
  | .phi o =>
    if DataSubjectList.eqSubjects self.entities o.entities = false then
      .gamma (GammaTensor.add self.create_gamma o.create_gamma)
    else
      .phi ⟨bcastZip (fun x y => x + y) self.child o.child,
            bcastZip (fun x y => x + y) self.min_vals o.min_vals,
            bcastZip (fun x y => x + y) self.max_vals o.max_vals,
            self.entities⟩
  | .scalar c =>
      .phi ⟨self.child.map (fun x => x + c),
            self.min_vals.map (fun x => x + c),
            self.max_vals.map (fun x => x + c),
            self.entities⟩
  | .array xs =>
      .phi ⟨bcastZip (fun x y => x + y) self.child xs,
            bcastZip (fun x y => x + y) self.min_vals xs,
            bcastZip (fun x y => x + y) self.max_vals xs,
            self.entities⟩
  | .gammaT g => .gamma (GammaTensor.add self.create_gamma g)
  | .unsupported _ => .raised .notImplementedError

/-- Embedding of `NDimEntityPhiTensor.__sub__` (lines 805-846).  Unequal
provenance raises `NotImplementedError`; equal provenance takes the four
cross terms of the envelopes and reduces them with elementwise min/max; an
array operand is broadcast-checked; other types raise. -/
def NDimEntityPhiTensor.sub (self : NDimEntityPhiTensor) (other : Operand) : OpOutcome :=
  match other with
  | .phi o =>
    if DataSubjectList.eqSubjects self.entities o.entities = false then
      .raised .notImplementedError
    else
      .phi ⟨bcastZip (fun x y => x - y) self.child o.child,
            minReduce4 (bcastZip (fun x y => x - y) self.min_vals o.min_vals)
                       (bcastZip (fun x y => x - y) self.min_vals o.max_vals)
                       (bcastZip (fun x y => x - y) self.max_vals o.min_vals)
                       (bcastZip (fun x y => x - y) self.max_vals o.max_vals),
            maxReduce4 (bcastZip (fun x y => x - y) self.min_vals o.min_vals)
                       (bcastZip (fun x y => x - y) self.min_vals o.max_vals)
                       (bcastZip (fun x y => x - y) self.max_vals o.min_vals)
                       (bcastZip (fun x y => x - y) self.max_vals o.max_vals),
            self.entities⟩
  | .scalar c =>
      .phi ⟨self.child.map (fun x => x - c),
            self.min_vals.map (fun x => x - c),
            self.max_vals.map (fun x => x - c),
            self.entities⟩
  | .array xs =>
      if is_broadcastable1 xs.length self.child.length = false then
        .raised (.exc "Shapes do not match for subtraction")
      else
        .phi ⟨bcastZip (fun x y => x - y) self.child xs,
              bcastZip (fun x y => x - y) self.min_vals xs,
              bcastZip (fun x y => x - y) self.max_vals xs,
              self.entities⟩
  | .gammaT _ => .raised .notImplementedError
  | .unsupported _ => .raised .notImplementedError

/-- Embedding of `NDimEntityPhiTensor.__mul__` (lines 848-904).  Unequal
provenance promotes both operands; equal provenance takes the four cross
products of the envelopes reduced with elementwise min/max; a scalar or
array multiplies through the same four-term template; any other operand
RETURNS the class `NotImplementedError` instead of raising it (line 904). -/
def NDimEntityPhiTensor.mul (self : NDimEntityPhiTensor) (other : Operand) : OpOutcome :=
  match other with
  | .phi o =>
    if DataSubjectList.eqSubjects self.entities o.entities = false then
      .gamma (GammaTensor.add self.create_gamma o.create_gamma)
    else
      .phi ⟨bcastZip (fun x y => x * y) self.child o.child,
            minReduce4 (bcastZip (fun x y => x * y) self.min_vals o.min_vals)
                       (bcastZip (fun x y => x * y) self.min_vals o.max_vals)
                       (bcastZip (fun x y => x * y) self.max_vals o.min_vals)
                       (bcastZip (fun x y => x * y) self.max_vals o.max_vals),
            maxReduce4 (bcastZip (fun x y => x * y) self.min_vals o.min_vals)
                       (bcastZip (fun x y => x * y) self.min_vals o.max_vals)
                       (bcastZip (fun x y => x * y) self.max_vals o.min_vals)
                       (bcastZip (fun x y => x * y) self.max_vals o.max_vals),
            self.entities⟩
  | .scalar c =>
      .phi ⟨self.child.map (fun x => x * c),
            minReduce4 (self.min_vals.map (fun x => x * c))
                       (self.min_vals.map (fun x => x * c))
                       (self.max_vals.map (fun x => x * c))
                       (self.max_vals.map (fun x => x * c)),
            maxReduce4 (self.min_vals.map (fun x => x * c))
                       (self.min_vals.map (fun x => x * c))
                       (self.max_vals.map (fun x => x * c))
                       (self.max_vals.map (fun x => x * c)),
            self.entities⟩
  | .array xs =>
      .phi ⟨bcastZip (fun x y => x * y) self.child xs,
            minReduce4 (bcastZip (fun x y => x * y) self.min_vals xs)
                       (bcastZip (fun x y => x * y) self.min_vals xs)
                       (bcastZip (fun x y => x * y) self.max_vals xs)
                       (bcastZip (fun x y => x * y) self.max_vals xs),
            maxReduce4 (bcastZip (fun x y => x * y) self.min_vals xs)
                       (bcastZip (fun x y => x * y) self.min_vals xs)
                       (bcastZip (fun x y => x * y) self.max_vals xs)
                       (bcastZip (fun x y => x * y) self.max_vals xs),
            self.entities⟩
  | .gammaT _ => .returnedValue .notImplementedError
  | .unsupported _ => .returnedValue .notImplementedError

/-- Embedding of `NDimEntityPhiTensor.__matmul__` (lines 906-951).  A plain
array propagates min/max through matmul directly; another PhiTensor with
unequal provenance raises `NotImplementedError`, with equal provenance the
envelopes go through matmul of the min arrays and of the max arrays; any
other operand raises the not-yet-implemented `Exception`. -/
def NDimEntityPhiTensor.matmul (self : NDimEntityPhiTensor) (other : Operand) : OpOutcome :=
  match other with
  | .array xs =>
      .phi ⟨dot1d self.child xs, dot1d self.min_vals xs, dot1d self.max_vals xs,
            self.entities⟩
  | .phi o =>
    if DataSubjectList.eqSubjects self.entities o.entities = false then
      .raised .notImplementedError
    else
      .phi ⟨dot1d self.child o.child, dot1d self.min_vals o.min_vals,
            dot1d self.max_vals o.max_vals, self.entities⟩
  | .scalar _ => .raised (.exc "Matrix multiplication not yet implemented for type")
  | .gammaT _ => .raised (.exc "Matrix multiplication not yet implemented for type")
  | .unsupported _ => .raised (.exc "Matrix multiplication not yet implemented for type")

/-- Embedding of `NDimEntityPhiTensor.__lt__` (lines 1024-1070).  Unequal
provenance raises `NotImplementedError`; a dimension mismatch raises; the
accepted cases return booleans with envelopes `min_vals * 0` and
`max_vals * 0 + 1`; any other operand RETURNS `NotImplementedError` as a
value (line 1070). -/
def NDimEntityPhiTensor.lt (self : NDimEntityPhiTensor) (other : Operand) : OpOutcome :=
  match other with
  | .phi o =>
    if DataSubjectList.eqSubjects self.entities o.entities = false then
      .raised .notImplementedError
    else if self.child.length ≠ o.child.length then
      .raised (.exc "Tensor dims do not match for lt")
    else
      .phi ⟨bcastZip (fun x y => if x < y then 1 else 0) self.child o.child,
            self.min_vals.map (fun x => x * 0),
            self.max_vals.map (fun x => x * 0 + 1),
            self.entities⟩
  | .scalar c =>
      .phi ⟨self.child.map (fun x => if x < c then 1 else 0),
            self.min_vals.map (fun x => x * 0),
            self.max_vals.map (fun x => x * 0 + 1),
            self.entities⟩
  | .array xs =>
      .phi ⟨bcastZip (fun x y => if x < y then 1 else 0) self.child xs,
            self.min_vals.map (fun x => x * 0),
            self.max_vals.map (fun x => x * 0 + 1),
            self.entities⟩
  | .gammaT _ => .returnedValue .notImplementedError
  | .unsupported _ => .returnedValue .notImplementedError

/-- Embedding of `NDimEntityPhiTensor.__gt__` (lines 1072-1117).  Structure
identical to `__lt__` with the comparison reversed, except that its final
branch RAISES `NotImplementedError` (line 1117) instead of returning it. -/
def NDimEntityPhiTensor.gt (self : NDimEntityPhiTensor) (other : Operand) : OpOutcome :=
  match other with
  | .phi o =>
    if DataSubjectList.eqSubjects self.entities o.entities = false then
      .raised .notImplementedError
    else if self.child.length ≠ o.child.length then
      .raised (.exc "Tensor dims do not match for gt")
    else
      .phi ⟨bcastZip (fun x y => if y < x then 1 else 0) self.child o.child,
            self.min_vals.map (fun x => x * 0),
            self.max_vals.map (fun x => x * 0 + 1),
            self.entities⟩
  | .scalar c =>
      .phi ⟨self.child.map (fun x => if c < x then 1 else 0),
            self.min_vals.map (fun x => x * 0),
            self.max_vals.map (fun x => x * 0 + 1),
            self.entities⟩
  | .array xs =>
      .phi ⟨bcastZip (fun x y => if y < x then 1 else 0) self.child xs,
            self.min_vals.map (fun x => x * 0),
            self.max_vals.map (fun x => x * 0 + 1),
            self.entities⟩
  | .gammaT _ => .raised .notImplementedError
  | .unsupported _ => .raised .notImplementedError

/-- Embedding of `NDimEntityPhiTensor.sum` (lines 1148-1168): a single-subject
provenance set yields a PhiTensor with payload and both envelopes reduced to
their totals and provenance rebuilt from that one subject; otherwise a
GammaTensor with the same reductions is returned. -/
def NDimEntityPhiTensor.sum (self : NDimEntityPhiTensor) : OpOutcome :=
  if self.entities.one_hot_lookup.length = 1 then
    .phi ⟨[self.child.sum], [self.min_vals.sum], [self.max_vals.sum],
          DataSubjectList.from_objs1 (self.entities.one_hot_lookup.headD "")⟩
  else
    .gamma ⟨[self.child.sum], DataSubjectList.sumSubjects self.entities,
            [self.min_vals.sum], [self.max_vals.sum], none, 0⟩

/-- Embedding of `NDimEntityPhiTensor.dot` (lines 1211-1246).  A plain array
gives a PhiTensor whose BOTH envelopes are `self.child.dot(other)` (the
payload result, lines 1219-1220); a non-array simple type raises; another
PhiTensor is allowed only when both sides have a single, identical subject
list; everything else raises `NotImplementedError`. -/
def NDimEntityPhiTensor.dot (self : NDimEntityPhiTensor) (other : Operand) : OpOutcome :=
  match other with
  | .array xs =>
      .phi ⟨dot1d self.child xs, dot1d self.child xs, dot1d self.child xs,
            self.entities⟩
  | .scalar _ => .raised (.exc "We cannot take a dot product with this object type")
  | .phi o =>
    if 1 < self.entities.one_hot_lookup.length ∨ 1 < o.entities.one_hot_lookup.length then
      .raised .notImplementedError
    else if self.entities.one_hot_lookup = o.entities.one_hot_lookup then
      .phi ⟨dot1d self.child o.child, dot1d self.min_vals o.min_vals,
            dot1d self.max_vals o.max_vals, self.entities⟩
    else
      .raised .notImplementedError
  | .gammaT _ => .raised .notImplementedError
  | .unsupported _ => .raised .notImplementedError

/-- Observable events of a `publish` call, in program order: the insert
`gamma.state[gamma.id] = gamma` into the promoted tensor's own state mapping,
an insert into the identity-to-tensor mapping of the `ledger` parameter, and
the budget-checked noisy release performed by `GammaTensor.publish`. -/
inductive PubEvent where
  | registerState (key : ℕ)
  | registerLedger (key : ℕ)
  | release
deriving DecidableEq, Repr

/-- Modelled from the spec: `GammaTensor.publish` (`gamma_tensor.py` is not
under `src/`).  Spec 4.4 step 3: it performs the budget-checked noise-adding
release with the forwarded callbacks and sigma; no identity-keyed insert into
the ledger is part of it. -/
def GammaTensor.publishTrace (_g : GammaTensor) : List PubEvent :=
  [PubEvent.release]

/-- Outcome of `NDimEntityPhiTensor.publish`: the ordered event trace and the
released raw value (or the `ValueError` when no fixed-point reference
exists to receive it). -/
structure PublishResult where
  trace : List PubEvent
  released : Except PyError (List ℤ)
deriving Repr

/-- Embedding of `NDimEntityPhiTensor.publish` (lines 686-720): promote to a
GammaTensor, insert it into its own `state` mapping keyed by its own id
(line 698), delegate the release to `GammaTensor.publish`, then copy the
privatized value (`noised`, produced by the external noise mechanism) back
into the fixed-point payload, raising `ValueError` if `fpt_values` is gone. -/
def NDimEntityPhiTensor.publishModel (self : NDimEntityPhiTensor) (noised : List ℤ) :
    PublishResult :=
  let gamma := self.create_gamma
  let trace := [PubEvent.registerState gamma.id] ++ GammaTensor.publishTrace gamma
  match gamma.fpt_values with
  | none =>
      { trace := trace
        released := .error (.valueError "FixedPrecisionTensor values should not be None after publish") }
  | some _ => { trace := trace, released := .ok noised }

/-- RemoteHandle: `TensorWrappedNDimEntityPhiTensorPointer`.  The proxy
mirrors the provenance and bound metadata locally, together with the owning
`client` (modelled as an opaque token), the declared public shape and the
declared public dtype. -/
structure TensorPointer where
  client : ℕ
  entities : DataSubjectList
  min_vals : List ℤ
  max_vals : List ℤ
  public_shape : Option (List ℕ)
  public_dtype : Option String
deriving DecidableEq, Repr

/-- Modelled from the spec: `MPCTensor` as constructed by `_apply_op`
(`mpc_tensor.py` is not under `src/`).  Spec 4.5: a secret-shared value built
from one operand over a party list, carrying the operand's declared public
shape. -/
structure MPCTensor where
  secretClient : ℕ
  shape : Option (List ℕ)
  parties : List ℕ
deriving DecidableEq, Repr

/-- Operand kinds accepted by the pointer operators: another pointer, an
`MPCTensor`, or a public scalar / plain array. -/
inductive PtrOperand where
  | ptr (p : TensorPointer)
  | mpc (m : MPCTensor)
  | scalar (c : ℤ)
  | array (xs : List ℤ)
deriving Repr

/-- Outcome of a pointer operator: the requested op executed over two freshly
built `MPCTensor`s, the op executed by an existing `MPCTensor` against the
pointer, a locally forwarded placeholder pointer, or a raised error. -/
inductive PtrOpResult where
  | mpcOp (op : String) (lhs rhs : MPCTensor)
  | mpcWithPtr (op : String) (lhs : MPCTensor) (rhs : TensorPointer)
  | localPtr (p : TensorPointer)
  | error (e : PyError)
deriving Repr

/-- Modelled from the spec: `utils.get_shape` (`smpc/utils.py` is not under
`src/`).  Spec 4.6 step 4: a binary op's declared result shape is the numpy
broadcast of the two declared shapes (right-aligned, short shape padded with
ones, each dimension the max of the pair). -/
def get_shape (_op : String) (s1 s2 : List ℕ) : List ℕ :=
  let n := max s1.length s2.length
  let p1 := List.replicate (n - s1.length) 1 ++ s1
  let p2 := List.replicate (n - s2.length) 1 ++ s2
  List.zipWith (fun a b => max a b) p1 p2

/-- Embedding of `TensorWrappedNDimEntityPhiTensorPointer._apply_tensor_op`
(lines 144-230): allocate a placeholder pointer inheriting `entities`,
`min_vals` and `max_vals` from `self` unchanged, fire off the remote command,
and compute the declared public shape/dtype synchronously (ValueError on an
invalid operand type or an unresolvable dtype pair). -/
def TensorPointer.applyTensorOp (self : TensorPointer) (other : PtrOperand)
    (op : String) : PtrOpResult :=
  let otherMeta : Option (Option (List ℕ) × Option String) :=
    match other with
    | .ptr o => some (o.public_shape, o.public_dtype)
    | .scalar _ => some (some [1], some "int32")
    | .array xs => some (some [xs.length], some "int32")
    | .mpc _ => none
  match otherMeta with
  | none => .error (.valueError "Invalid Type for TensorWrappedNDimEntityPhiTensorPointer")
  | some (oshape, odtype) =>
    let result_public_shape : Option (List ℕ) :=
      match self.public_shape, oshape with
      | some s1, some s2 => some (get_shape op s1 s2)
      | _, _ => none
    if (self.public_dtype = none ∨ odtype = none) ∧ self.public_dtype ≠ odtype then
      .error (.valueError "Dtype for self and other should not be None")
    else
      .localPtr { client := self.client, entities := self.entities,
                  min_vals := self.min_vals, max_vals := self.max_vals,
                  public_shape := result_public_shape,
                  public_dtype := self.public_dtype }

/-- Embedding of `TensorWrappedNDimEntityPhiTensorPointer._apply_op`
(lines 232-268): when the other operand is a pointer owned by a DIFFERENT
client, both operands are wrapped as `MPCTensor`s over the party list
`[self.client, other.client]` with their declared public shapes and the op
runs over the two shares; an `MPCTensor` operand delegates to it; everything
else goes through the local `_apply_tensor_op` path. -/
def TensorPointer.applyOp (self : TensorPointer) (other : PtrOperand)
    (op : String) : PtrOpResult :=
  match other with
  | .ptr o =>
    if self.client ≠ o.client then
      .mpcOp op ⟨self.client, self.public_shape, [self.client, o.client]⟩
                ⟨o.client, o.public_shape, [self.client, o.client]⟩
    else
      self.applyTensorOp other op
  | .mpc m => .mpcWithPtr op m self
  | _ => self.applyTensorOp other op

/-- Embedding of the ten pointer dunder operators (lines 270-428), each a
call of `_apply_op` with its operator name. -/
def TensorPointer.addOp (self : TensorPointer) (other : PtrOperand) : PtrOpResult :=
  TensorPointer.applyOp self other "add"

/-- Pointer `__sub__` (lines 286-300). -/
def TensorPointer.subOp (self : TensorPointer) (other : PtrOperand) : PtrOpResult :=
  TensorPointer.applyOp self other "sub"

/-- Pointer `__mul__` (lines 302-316). -/
def TensorPointer.mulOp (self : TensorPointer) (other : PtrOperand) : PtrOpResult :=
  TensorPointer.applyOp self other "mul"

/-- Pointer `__matmul__` (lines 318-332). -/
def TensorPointer.matmulOp (self : TensorPointer) (other : PtrOperand) : PtrOpResult :=
  TensorPointer.applyOp self other "matmul"

/-- Pointer `__lt__` (lines 334-348). -/
def TensorPointer.ltOp (self : TensorPointer) (other : PtrOperand) : PtrOpResult :=
  TensorPointer.applyOp self other "lt"

/-- Pointer `__gt__` (lines 350-364). -/
def TensorPointer.gtOp (self : TensorPointer) (other : PtrOperand) : PtrOpResult :=
  TensorPointer.applyOp self other "gt"

/-- Pointer `__ge__` (lines 366-380). -/
def TensorPointer.geOp (self : TensorPointer) (other : PtrOperand) : PtrOpResult :=
  TensorPointer.applyOp self other "ge"

/-- Pointer `__le__` (lines 382-396). -/
def TensorPointer.leOp (self : TensorPointer) (other : PtrOperand) : PtrOpResult :=
  TensorPointer.applyOp self other "le"

/-- Pointer `__eq__` (lines 398-412). -/
def TensorPointer.eqOp (self : TensorPointer) (other : PtrOperand) : PtrOpResult :=
  TensorPointer.applyOp self other "eq"

/-- Pointer `__ne__` (lines 414-428). -/
def TensorPointer.neOp (self : TensorPointer) (other : PtrOperand) : PtrOpResult :=
  TensorPointer.applyOp self other "ne"

/-- Declared-bound discipline of a PhiTensor: the envelopes have the
payload's length and every payload element lies between its declared
minimum and maximum. -/
def withinBounds (t : NDimEntityPhiTensor) : Prop :=
  t.min_vals.length = t.child.length ∧ t.max_vals.length = t.child.length ∧
  ∀ i, i < t.child.length →
    t.min_vals.getD i 0 ≤ t.child.getD i 0 ∧ t.child.getD i 0 ≤ t.max_vals.getD i 0

instance (t : NDimEntityPhiTensor) : Decidable (withinBounds t) := by
  unfold withinBounds; infer_instance

/-- Soundness of a result tensor's envelopes against a list of true values:
each true element lies between the result's declared minimum and maximum. -/
def envelopesPayload (r : NDimEntityPhiTensor) (trueVals : List ℤ) : Prop :=
  ∀ i, i < trueVals.length →
    r.min_vals.getD i 0 ≤ trueVals.getD i 0 ∧ trueVals.getD i 0 ≤ r.max_vals.getD i 0

instance (r : NDimEntityPhiTensor) (v : List ℤ) : Decidable (envelopesPayload r v) := by
  unfold envelopesPayload; infer_instance

/-- Comparison-collapse shape of an operator outcome: a PhiTensor whose
minimum envelope is all zeros and whose maximum envelope is all ones, at the
operand's envelope lengths. -/
def collapsedBounds (a : NDimEntityPhiTensor) (o : OpOutcome) : Prop :=
  ∃ r, o = OpOutcome.phi r ∧
    r.min_vals = List.replicate a.min_vals.length 0 ∧
    r.max_vals = List.replicate a.max_vals.length 1

theorem bcastZip_of_length_eq (f : ℤ → ℤ → ℤ) (a b : List ℤ)
    (h : a.length = b.length) : bcastZip f a b = List.zipWith f a b := by
  simp [bcastZip, h]

theorem length_bcastZip_eq (f : ℤ → ℤ → ℤ) (a b : List ℤ)
    (h : a.length = b.length) : (bcastZip f a b).length = a.length := by
  rw [bcastZip_of_length_eq f a b h, List.length_zipWith]
  omega

theorem getD_zipWith (f : ℤ → ℤ → ℤ) (a : List ℤ) :
    ∀ (b : List ℤ) (i : ℕ), i < a.length → i < b.length →
      (List.zipWith f a b).getD i 0 = f (a.getD i 0) (b.getD i 0) := by
  induction a with
  | nil => intro b i hi _; exact absurd hi (by simp)
  | cons x xs ih =>
    intro b i hi1 hi2
    cases b with
    | nil => exact absurd hi2 (by simp)
    | cons y ys =>
      cases i with
      | zero => simp
      | succ n =>
        simp only [List.zipWith_cons_cons, List.getD_cons_succ]
        exact ih ys n (by simpa using hi1) (by simpa using hi2)

theorem getD_bcastZip (f : ℤ → ℤ → ℤ) (a b : List ℤ) (i : ℕ)
    (hl : a.length = b.length) (hi : i < a.length) :
    (bcastZip f a b).getD i 0 = f (a.getD i 0) (b.getD i 0) := by
  rw [bcastZip_of_length_eq f a b hl]
  exact getD_zipWith f a b i hi (hl ▸ hi)

theorem getD_minReduce4 (a b c d : List ℤ) (i : ℕ)
    (hab : a.length = b.length) (hac : a.length = c.length)
    (had : a.length = d.length) (hi : i < a.length) :
    (minReduce4 a b c d).getD i 0 =
      min (min (min (a.getD i 0) (b.getD i 0)) (c.getD i 0)) (d.getD i 0) := by
  have l1 : (bcastZip min a b).length = a.length := length_bcastZip_eq _ _ _ hab
  have l2 : (bcastZip min (bcastZip min a b) c).length = a.length := by
    rw [length_bcastZip_eq _ _ _ (by omega)]; omega
  unfold minReduce4
  rw [getD_bcastZip _ _ _ _ (by omega) (by omega),
      getD_bcastZip _ _ _ _ (by omega) (by omega),
      getD_bcastZip _ _ _ _ hab hi]

theorem getD_maxReduce4 (a b c d : List ℤ) (i : ℕ)
    (hab : a.length = b.length) (hac : a.length = c.length)
    (had : a.length = d.length) (hi : i < a.length) :
    (maxReduce4 a b c d).getD i 0 =
      max (max (max (a.getD i 0) (b.getD i 0)) (c.getD i 0)) (d.getD i 0) := by
  have l1 : (bcastZip max a b).length = a.length := length_bcastZip_eq _ _ _ hab
  have l2 : (bcastZip max (bcastZip max a b) c).length = a.length := by
    rw [length_bcastZip_eq _ _ _ (by omega)]; omega
  unfold maxReduce4
  rw [getD_bcastZip _ _ _ _ (by omega) (by omega),
      getD_bcastZip _ _ _ _ (by omega) (by omega),
      getD_bcastZip _ _ _ _ hab hi]

theorem interval_add (lo1 hi1 lo2 hi2 x y : ℤ)
    (h1 : lo1 ≤ x) (h2 : x ≤ hi1) (h3 : lo2 ≤ y) (h4 : y ≤ hi2) :
    lo1 + lo2 ≤ x + y ∧ x + y ≤ hi1 + hi2 := by omega

theorem interval_sub (lo1 hi1 lo2 hi2 x y : ℤ)
    (h1 : lo1 ≤ x) (h2 : x ≤ hi1) (h3 : lo2 ≤ y) (h4 : y ≤ hi2) :
    min (min (min (lo1 - lo2) (lo1 - hi2)) (hi1 - lo2)) (hi1 - hi2) ≤ x - y ∧
    x - y ≤ max (max (max (lo1 - lo2) (lo1 - hi2)) (hi1 - lo2)) (hi1 - hi2) := by
  constructor
  · calc min (min (min (lo1 - lo2) (lo1 - hi2)) (hi1 - lo2)) (hi1 - hi2)
        ≤ min (min (lo1 - lo2) (lo1 - hi2)) (hi1 - lo2) := min_le_left _ _
      _ ≤ min (lo1 - lo2) (lo1 - hi2) := min_le_left _ _
      _ ≤ lo1 - hi2 := min_le_right _ _
      _ ≤ x - y := by omega
  · calc x - y ≤ hi1 - lo2 := by omega
      _ ≤ max (max (lo1 - lo2) (lo1 - hi2)) (hi1 - lo2) := le_max_right _ _
      _ ≤ max (max (max (lo1 - lo2) (lo1 - hi2)) (hi1 - lo2)) (hi1 - hi2) :=
          le_max_left _ _

theorem mul_const_bounds (lo hi x c : ℤ) (h1 : lo ≤ x) (h2 : x ≤ hi) :
    min (lo * c) (hi * c) ≤ x * c ∧ x * c ≤ max (lo * c) (hi * c) := by
  rcases le_total 0 c with hc | hc
  · exact ⟨le_trans (min_le_left _ _) (mul_le_mul_of_nonneg_right h1 hc),
           le_trans (mul_le_mul_of_nonneg_right h2 hc) (le_max_right _ _)⟩
  · exact ⟨le_trans (min_le_right _ _) (mul_le_mul_of_nonpos_right h2 hc),
           le_trans (mul_le_mul_of_nonpos_right h1 hc) (le_max_left _ _)⟩

theorem interval_mul (lo1 hi1 lo2 hi2 x y : ℤ)
    (h1 : lo1 ≤ x) (h2 : x ≤ hi1) (h3 : lo2 ≤ y) (h4 : y ≤ hi2) :
    min (min (min (lo1 * lo2) (lo1 * hi2)) (hi1 * lo2)) (hi1 * hi2) ≤ x * y ∧
    x * y ≤ max (max (max (lo1 * lo2) (lo1 * hi2)) (hi1 * lo2)) (hi1 * hi2) := by
  obtain ⟨hy1, hy2⟩ := mul_const_bounds lo2 hi2 y x h3 h4
  obtain ⟨ha1, ha2⟩ := mul_const_bounds lo1 hi1 x lo2 h1 h2
  obtain ⟨hb1, hb2⟩ := mul_const_bounds lo1 hi1 x hi2 h1 h2
  constructor
  · have c1 : min (min (min (lo1 * lo2) (lo1 * hi2)) (hi1 * lo2)) (hi1 * hi2)
        ≤ x * lo2 :=
      le_trans (le_min
        (le_trans (min_le_left _ _) (le_trans (min_le_left _ _) (min_le_left _ _)))
        (le_trans (min_le_left _ _) (min_le_right _ _))) ha1
    have c2 : min (min (min (lo1 * lo2) (lo1 * hi2)) (hi1 * lo2)) (hi1 * hi2)
        ≤ x * hi2 :=
      le_trans (le_min
        (le_trans (min_le_left _ _) (le_trans (min_le_left _ _) (min_le_right _ _)))
        (min_le_right _ _)) hb1
    have c3 : min (min (min (lo1 * lo2) (lo1 * hi2)) (hi1 * lo2)) (hi1 * hi2)
        ≤ min (lo2 * x) (hi2 * x) := by
      apply le_min
      · rw [mul_comm lo2 x]; exact c1
      · rw [mul_comm hi2 x]; exact c2
    calc min (min (min (lo1 * lo2) (lo1 * hi2)) (hi1 * lo2)) (hi1 * hi2)
        ≤ y * x := le_trans c3 hy1
      _ = x * y := mul_comm y x
  · have c1 : x * lo2
        ≤ max (max (max (lo1 * lo2) (lo1 * hi2)) (hi1 * lo2)) (hi1 * hi2) :=
      le_trans ha2 (max_le
        (le_trans (le_max_left _ _) (le_trans (le_max_left _ _) (le_max_left _ _)))
        (le_trans (le_max_right _ _) (le_max_left _ _)))
    have c2 : x * hi2
        ≤ max (max (max (lo1 * lo2) (lo1 * hi2)) (hi1 * lo2)) (hi1 * hi2) :=
      le_trans hb2 (max_le
        (le_trans (le_max_right _ _) (le_trans (le_max_left _ _) (le_max_left _ _)))
        (le_max_right _ _))
    have c3 : max (lo2 * x) (hi2 * x)
        ≤ max (max (max (lo1 * lo2) (lo1 * hi2)) (hi1 * lo2)) (hi1 * hi2) := by
      apply max_le
      · rw [mul_comm lo2 x]; exact c1
      · rw [mul_comm hi2 x]; exact c2
    calc x * y = y * x := mul_comm x y
      _ ≤ max (max (max (lo1 * lo2) (lo1 * hi2)) (hi1 * lo2)) (hi1 * hi2) :=
          le_trans hy2 c3

theorem map_mul_zero (l : List ℤ) :
    l.map (fun x => x * 0) = List.replicate l.length 0 := by
  induction l with
  | nil => rfl
  | cons x xs ih => simp [List.replicate_succ, ih]

theorem map_mul_zero_add_one (l : List ℤ) :
    l.map (fun x => x * 0 + 1) = List.replicate l.length 1 := by
  induction l with
  | nil => rfl
  | cons x xs ih => simp [List.replicate_succ, ih]

theorem reduce4_sound (f : ℤ → ℤ → ℤ)
    (hf : ∀ lo1 hi1 lo2 hi2 x y : ℤ, lo1 ≤ x → x ≤ hi1 → lo2 ≤ y → y ≤ hi2 →
      min (min (min (f lo1 lo2) (f lo1 hi2)) (f hi1 lo2)) (f hi1 hi2) ≤ f x y ∧
      f x y ≤ max (max (max (f lo1 lo2) (f lo1 hi2)) (f hi1 lo2)) (f hi1 hi2))
    (xc xmin xmax yc ymin ymax : List ℤ)
    (hx1 : xmin.length = xc.length) (hx2 : xmax.length = xc.length)
    (hy1 : ymin.length = yc.length) (hy2 : ymax.length = yc.length)
    (hl : xc.length = yc.length)
    (hxb : ∀ i, i < xc.length →
      xmin.getD i 0 ≤ xc.getD i 0 ∧ xc.getD i 0 ≤ xmax.getD i 0)
    (hyb : ∀ i, i < yc.length →
      ymin.getD i 0 ≤ yc.getD i 0 ∧ yc.getD i 0 ≤ ymax.getD i 0)
    (i : ℕ) (hi : i < (List.zipWith f xc yc).length) :
    (minReduce4 (bcastZip f xmin ymin) (bcastZip f xmin ymax)
                (bcastZip f xmax ymin) (bcastZip f xmax ymax)).getD i 0
      ≤ (List.zipWith f xc yc).getD i 0 ∧
    (List.zipWith f xc yc).getD i 0
      ≤ (maxReduce4 (bcastZip f xmin ymin) (bcastZip f xmin ymax)
                    (bcastZip f xmax ymin) (bcastZip f xmax ymax)).getD i 0 := by
  rw [List.length_zipWith] at hi
  have hia : i < xc.length := by omega
  have hib : i < yc.length := by omega
  have l1 : (bcastZip f xmin ymin).length = xc.length := by
    rw [length_bcastZip_eq _ _ _ (by omega)]; omega
  have l2 : (bcastZip f xmin ymax).length = xc.length := by
    rw [length_bcastZip_eq _ _ _ (by omega)]; omega
  have l3 : (bcastZip f xmax ymin).length = xc.length := by
    rw [length_bcastZip_eq _ _ _ (by omega)]; omega
  have l4 : (bcastZip f xmax ymax).length = xc.length := by
    rw [length_bcastZip_eq _ _ _ (by omega)]; omega
  rw [getD_zipWith f xc yc i hia hib,
      getD_minReduce4 (bcastZip f xmin ymin) (bcastZip f xmin ymax)
        (bcastZip f xmax ymin) (bcastZip f xmax ymax) i
        (by omega) (by omega) (by omega) (by omega),
      getD_maxReduce4 (bcastZip f xmin ymin) (bcastZip f xmin ymax)
        (bcastZip f xmax ymin) (bcastZip f xmax ymax) i
        (by omega) (by omega) (by omega) (by omega),
      getD_bcastZip f xmin ymin i (by omega) (by omega),
      getD_bcastZip f xmin ymax i (by omega) (by omega),
      getD_bcastZip f xmax ymin i (by omega) (by omega),
      getD_bcastZip f xmax ymax i (by omega) (by omega)]
  exact hf _ _ _ _ _ _ (hxb i hia).1 (hxb i hia).2 (hyb i hib).1 (hyb i hib).2

/-- C1: for every pair of PhiTensors whose payloads lie within their declared
bound envelopes and whose provenance sets are equal, each of add, sub and mul
produces a PhiTensor whose envelopes contain the true elementwise payload
result: add sums the bounds, sub and mul take elementwise min/max over the
four cross terms. -/
theorem phi_binop_bounds_sound (a b : NDimEntityPhiTensor)
    (hent : DataSubjectList.eqSubjects a.entities b.entities = true)
    (hlen : a.child.length = b.child.length)
    (ha : withinBounds a) (hb : withinBounds b) :
    (∃ r, NDimEntityPhiTensor.add a (.phi b) = .phi r ∧
       envelopesPayload r (List.zipWith (fun x y => x + y) a.child b.child)) ∧
    (∃ r, NDimEntityPhiTensor.sub a (.phi b) = .phi r ∧
       envelopesPayload r (List.zipWith (fun x y => x - y) a.child b.child)) ∧
    (∃ r, NDimEntityPhiTensor.mul a (.phi b) = .phi r ∧
       envelopesPayload r (List.zipWith (fun x y => x * y) a.child b.child)) := by
  obtain ⟨hamin, hamax, habound⟩ := ha
  obtain ⟨hbmin, hbmax, hbbound⟩ := hb
  refine ⟨⟨⟨bcastZip (fun x y => x + y) a.child b.child,
            bcastZip (fun x y => x + y) a.min_vals b.min_vals,
            bcastZip (fun x y => x + y) a.max_vals b.max_vals, a.entities⟩,
          by simp [NDimEntityPhiTensor.add, hent], ?_⟩,
         ⟨⟨bcastZip (fun x y => x - y) a.child b.child,
           minReduce4 (bcastZip (fun x y => x - y) a.min_vals b.min_vals)
                      (bcastZip (fun x y => x - y) a.min_vals b.max_vals)
                      (bcastZip (fun x y => x - y) a.max_vals b.min_vals)
                      (bcastZip (fun x y => x - y) a.max_vals b.max_vals),
           maxReduce4 (bcastZip (fun x y => x - y) a.min_vals b.min_vals)
                      (bcastZip (fun x y => x - y) a.min_vals b.max_vals)
                      (bcastZip (fun x y => x - y) a.max_vals b.min_vals)
                      (bcastZip (fun x y => x - y) a.max_vals b.max_vals),
           a.entities⟩,
          by simp [NDimEntityPhiTensor.sub, hent], ?_⟩,
         ⟨⟨bcastZip (fun x y => x * y) a.child b.child,
           minReduce4 (bcastZip (fun x y => x * y) a.min_vals b.min_vals)
                      (bcastZip (fun x y => x * y) a.min_vals b.max_vals)
                      (bcastZip (fun x y => x * y) a.max_vals b.min_vals)
                      (bcastZip (fun x y => x * y) a.max_vals b.max_vals),
           maxReduce4 (bcastZip (fun x y => x * y) a.min_vals b.min_vals)
                      (bcastZip (fun x y => x * y) a.min_vals b.max_vals)
                      (bcastZip (fun x y => x * y) a.max_vals b.min_vals)
                      (bcastZip (fun x y => x * y) a.max_vals b.max_vals),
           a.entities⟩,
          by simp [NDimEntityPhiTensor.mul, hent], ?_⟩⟩
  · intro i hi
    rw [List.length_zipWith] at hi
    have hia : i < a.child.length := by omega
    have hib : i < b.child.length := by omega
    have h1 := habound i hia
    have h2 := hbbound i hib
    show (bcastZip (fun x y => x + y) a.min_vals b.min_vals).getD i 0 ≤ _ ∧
      _ ≤ (bcastZip (fun x y => x + y) a.max_vals b.max_vals).getD i 0
    rw [getD_zipWith (fun x y => x + y) a.child b.child i hia hib,
        getD_bcastZip (fun x y => x + y) a.min_vals b.min_vals i (by omega) (by omega),
        getD_bcastZip (fun x y => x + y) a.max_vals b.max_vals i (by omega) (by omega)]
    constructor <;> omega
  · intro i hi
    exact reduce4_sound (fun x y => x - y) interval_sub
      a.child a.min_vals a.max_vals b.child b.min_vals b.max_vals
      hamin hamax hbmin hbmax hlen habound hbbound i hi
  · intro i hi
    exact reduce4_sound (fun x y => x * y) interval_mul
      a.child a.min_vals a.max_vals b.child b.min_vals b.max_vals
      hamin hamax hbmin hbmax hlen habound hbbound i hi

/-- Witness for C1 at the spec's concrete scenario shapes: alice-owned
operands with payloads inside their declared bounds. -/
theorem phi_binop_bounds_sound_witness :
    (∃ r, NDimEntityPhiTensor.add ⟨[1, 2], [0, 0], [5, 5], ⟨["alice"], [0, 0]⟩⟩
        (.phi ⟨[4, 4], [2, 2], [6, 6], ⟨["alice"], [0, 0]⟩⟩) = .phi r ∧
       envelopesPayload r (List.zipWith (fun x y => x + y) [1, 2] [4, 4])) ∧
    (∃ r, NDimEntityPhiTensor.sub ⟨[1, 2], [0, 0], [5, 5], ⟨["alice"], [0, 0]⟩⟩
        (.phi ⟨[4, 4], [2, 2], [6, 6], ⟨["alice"], [0, 0]⟩⟩) = .phi r ∧
       envelopesPayload r (List.zipWith (fun x y => x - y) [1, 2] [4, 4])) ∧
    (∃ r, NDimEntityPhiTensor.mul ⟨[1, 2], [0, 0], [5, 5], ⟨["alice"], [0, 0]⟩⟩
        (.phi ⟨[4, 4], [2, 2], [6, 6], ⟨["alice"], [0, 0]⟩⟩) = .phi r ∧
       envelopesPayload r (List.zipWith (fun x y => x * y) [1, 2] [4, 4])) :=
  phi_binop_bounds_sound
    ⟨[1, 2], [0, 0], [5, 5], ⟨["alice"], [0, 0]⟩⟩
    ⟨[4, 4], [2, 2], [6, 6], ⟨["alice"], [0, 0]⟩⟩
    (by decide) (by decide) (by decide) (by decide)

/-- C2: adding two PhiTensors with unequal provenance sets yields a
GammaTensor (never a PhiTensor); with equal provenance it yields a
PhiTensor. -/
theorem add_provenance_promotion (a b : NDimEntityPhiTensor) :
    (DataSubjectList.eqSubjects a.entities b.entities = false →
      ∃ g, NDimEntityPhiTensor.add a (.phi b) = .gamma g) ∧
    (DataSubjectList.eqSubjects a.entities b.entities = true →
      ∃ t, NDimEntityPhiTensor.add a (.phi b) = .phi t) := by
  constructor
  · intro h
    refine ⟨GammaTensor.add a.create_gamma b.create_gamma, ?_⟩
    simp [NDimEntityPhiTensor.add, h]
  · intro h
    refine ⟨⟨bcastZip (fun x y => x + y) a.child b.child,
             bcastZip (fun x y => x + y) a.min_vals b.min_vals,
             bcastZip (fun x y => x + y) a.max_vals b.max_vals, a.entities⟩, ?_⟩
    simp [NDimEntityPhiTensor.add, h]

/-- Witness for C2: disjoint single-subject provenance promotes; shared
provenance stays private. -/
theorem add_provenance_promotion_witness :
    (∃ g, NDimEntityPhiTensor.add ⟨[1, 2], [0, 0], [5, 5], ⟨["alice"], [0, 0]⟩⟩
        (.phi ⟨[4, 4], [2, 2], [6, 6], ⟨["bob"], [0, 0]⟩⟩) = .gamma g) ∧
    (∃ t, NDimEntityPhiTensor.add ⟨[1, 2], [0, 0], [5, 5], ⟨["alice"], [0, 0]⟩⟩
        (.phi ⟨[4, 4], [2, 2], [6, 6], ⟨["alice"], [0, 0]⟩⟩) = .phi t) :=
  ⟨(add_provenance_promotion ⟨[1, 2], [0, 0], [5, 5], ⟨["alice"], [0, 0]⟩⟩
      ⟨[4, 4], [2, 2], [6, 6], ⟨["bob"], [0, 0]⟩⟩).1 (by decide),
   (add_provenance_promotion ⟨[1, 2], [0, 0], [5, 5], ⟨["alice"], [0, 0]⟩⟩
      ⟨[4, 4], [2, 2], [6, 6], ⟨["alice"], [0, 0]⟩⟩).2 (by decide)⟩

/-- C3: between two PhiTensors with unequal provenance sets, sub, lt, gt and
matmul all fail fast by raising `NotImplementedError` instead of promoting. -/
theorem mismatched_provenance_fails_fast (a b : NDimEntityPhiTensor)
    (h : DataSubjectList.eqSubjects a.entities b.entities = false) :
    NDimEntityPhiTensor.sub a (.phi b) = .raised .notImplementedError ∧
    NDimEntityPhiTensor.lt a (.phi b) = .raised .notImplementedError ∧
    NDimEntityPhiTensor.gt a (.phi b) = .raised .notImplementedError ∧
    NDimEntityPhiTensor.matmul a (.phi b) = .raised .notImplementedError := by
  refine ⟨?_, ?_, ?_, ?_⟩ <;>
    simp [NDimEntityPhiTensor.sub, NDimEntityPhiTensor.lt,
          NDimEntityPhiTensor.gt, NDimEntityPhiTensor.matmul, h]

/-- Witness for C3 at concrete alice-vs-bob tensors. -/
theorem mismatched_provenance_fails_fast_witness :
    NDimEntityPhiTensor.sub ⟨[1, 2], [0, 0], [5, 5], ⟨["alice"], [0, 0]⟩⟩
        (.phi ⟨[4, 4], [2, 2], [6, 6], ⟨["bob"], [0, 0]⟩⟩) =
      .raised .notImplementedError ∧
    NDimEntityPhiTensor.lt ⟨[1, 2], [0, 0], [5, 5], ⟨["alice"], [0, 0]⟩⟩
        (.phi ⟨[4, 4], [2, 2], [6, 6], ⟨["bob"], [0, 0]⟩⟩) =
      .raised .notImplementedError ∧
    NDimEntityPhiTensor.gt ⟨[1, 2], [0, 0], [5, 5], ⟨["alice"], [0, 0]⟩⟩
        (.phi ⟨[4, 4], [2, 2], [6, 6], ⟨["bob"], [0, 0]⟩⟩) =
      .raised .notImplementedError ∧
    NDimEntityPhiTensor.matmul ⟨[1, 2], [0, 0], [5, 5], ⟨["alice"], [0, 0]⟩⟩
        (.phi ⟨[4, 4], [2, 2], [6, 6], ⟨["bob"], [0, 0]⟩⟩) =
      .raised .notImplementedError :=
  mismatched_provenance_fails_fast
    ⟨[1, 2], [0, 0], [5, 5], ⟨["alice"], [0, 0]⟩⟩
    ⟨[4, 4], [2, 2], [6, 6], ⟨["bob"], [0, 0]⟩⟩ (by decide)

/-- C4: summing a PhiTensor whose provenance set has exactly one subject
yields a PhiTensor with payload and both envelopes fully reduced and
provenance collapsed to that single subject; with more than one subject it
yields a GammaTensor. -/
theorem sum_single_subject_dispatch (a : NDimEntityPhiTensor) :
    (a.entities.one_hot_lookup.length = 1 →
      NDimEntityPhiTensor.sum a =
        .phi ⟨[a.child.sum], [a.min_vals.sum], [a.max_vals.sum],
              DataSubjectList.from_objs1 (a.entities.one_hot_lookup.headD "")⟩) ∧
    (1 < a.entities.one_hot_lookup.length →
      ∃ g, NDimEntityPhiTensor.sum a = .gamma g) := by
  constructor
  · intro h
    simp [NDimEntityPhiTensor.sum, h]
  · intro h
    refine ⟨⟨[a.child.sum], DataSubjectList.sumSubjects a.entities,
             [a.min_vals.sum], [a.max_vals.sum], none, 0⟩, ?_⟩
    unfold NDimEntityPhiTensor.sum
    rw [if_neg (by omega)]

/-- Witness for C4: a single-subject sum collapses to alice; a two-subject
sum promotes to a GammaTensor. -/
theorem sum_single_subject_dispatch_witness :
    (NDimEntityPhiTensor.sum ⟨[1, 2, 3], [0, 0, 0], [5, 5, 5], ⟨["alice"], [0, 0, 0]⟩⟩ =
      .phi ⟨[6], [0], [15], ⟨["alice"], [0]⟩⟩) ∧
    (∃ g, NDimEntityPhiTensor.sum ⟨[1, 2], [0, 0], [5, 5], ⟨["alice", "bob"], [0, 1]⟩⟩ =
      .gamma g) := by
  constructor
  · have h := (sum_single_subject_dispatch
      ⟨[1, 2, 3], [0, 0, 0], [5, 5, 5], ⟨["alice"], [0, 0, 0]⟩⟩).1 (by decide)
    rw [h]; decide
  · exact (sum_single_subject_dispatch
      ⟨[1, 2], [0, 0], [5, 5], ⟨["alice", "bob"], [0, 1]⟩⟩).2 (by decide)

/-- C5 counterexample: publishing a concrete tensor produces the event trace
`[registerState 0, release]`; no insert keyed by the promoted GammaTensor's
own identity ever reaches the mapping of the `ledger` parameter, refuting the
claim that the ledger mapping receives the insert before release. -/
theorem publish_ledger_insert_counterexample :
    (NDimEntityPhiTensor.publishModel
        ⟨[1, 2], [0, 0], [5, 5], ⟨["alice"], [0, 0]⟩⟩ [42]).trace =
      [PubEvent.registerState 0, PubEvent.release] ∧
    PubEvent.registerLedger
        (NDimEntityPhiTensor.create_gamma
          ⟨[1, 2], [0, 0], [5, 5], ⟨["alice"], [0, 0]⟩⟩).id ∉
      (NDimEntityPhiTensor.publishModel
        ⟨[1, 2], [0, 0], [5, 5], ⟨["alice"], [0, 0]⟩⟩ [42]).trace := by
  exact ⟨rfl, by decide⟩

/-- C5 amended: during publish, before the budget-checked release executes,
the promoted GammaTensor is registered into its OWN state mapping
(`gamma.state[gamma.id] = gamma`), keyed by its own identity; the `ledger`
parameter is forwarded to the release unchanged and receives no
identity-keyed insert in this code. -/
theorem publish_registers_state_before_release (t : NDimEntityPhiTensor)
    (noised : List ℤ) :
    (t.publishModel noised).trace =
      [PubEvent.registerState t.create_gamma.id, PubEvent.release] := rfl

/-- C6: every binary pointer operator between two remote tensor handles with
different owning clients is delegated to the secret-sharing path: both
operands are wrapped as MPCTensors over the party list
`[self.client, other.client]` with their declared public shapes, regardless
of the operator and of the operands' provenance. -/
theorem cross_owner_dispatches_mpc (self o : TensorPointer) (op : String)
    (h : self.client ≠ o.client) :
    TensorPointer.applyOp self (.ptr o) op =
      .mpcOp op ⟨self.client, self.public_shape, [self.client, o.client]⟩
                ⟨o.client, o.public_shape, [self.client, o.client]⟩ := by
  simp [TensorPointer.applyOp, h]

/-- Witness for C6 at two concrete pointers owned by clients 1 and 2. -/
theorem cross_owner_dispatches_mpc_witness :
    TensorPointer.applyOp
        ⟨1, ⟨["alice"], [0]⟩, [0], [5], some [3], some "int32"⟩
        (.ptr ⟨2, ⟨["bob"], [0]⟩, [0], [5], some [3], some "int32"⟩) "add" =
      .mpcOp "add" ⟨1, some [3], [1, 2]⟩ ⟨2, some [3], [1, 2]⟩ :=
  cross_owner_dispatches_mpc
    ⟨1, ⟨["alice"], [0]⟩, [0], [5], some [3], some "int32"⟩
    ⟨2, ⟨["bob"], [0]⟩, [0], [5], some [3], some "int32"⟩ "add" (by decide)

/-- C7: adding two PhiTensors with equal provenance yields a PhiTensor whose
payload is the elementwise payload sum, whose min envelope is the sum of the
min envelopes, whose max envelope is the sum of the max envelopes, and whose
provenance is the shared input provenance unchanged. -/
theorem add_equal_provenance_exact (a b : NDimEntityPhiTensor)
    (h : a.entities = b.entities) :
    NDimEntityPhiTensor.add a (.phi b) =
      .phi ⟨bcastZip (fun x y => x + y) a.child b.child,
            bcastZip (fun x y => x + y) a.min_vals b.min_vals,
            bcastZip (fun x y => x + y) a.max_vals b.max_vals,
            a.entities⟩ := by
  simp [NDimEntityPhiTensor.add, DataSubjectList.eqSubjects, h]

/-- Witness for C7 at the spec's concrete scenario: alice's `[1,2,3]` in
`[0,5]` plus alice's `[4,4,4]` in `[2,6]` gives `[5,6,7]` in `[2,11]` with
provenance still alice. -/
theorem add_equal_provenance_exact_witness :
    NDimEntityPhiTensor.add ⟨[1, 2, 3], [0, 0, 0], [5, 5, 5], ⟨["alice"], [0, 0, 0]⟩⟩
        (.phi ⟨[4, 4, 4], [2, 2, 2], [6, 6, 6], ⟨["alice"], [0, 0, 0]⟩⟩) =
      .phi ⟨[5, 6, 7], [2, 2, 2], [11, 11, 11], ⟨["alice"], [0, 0, 0]⟩⟩ := by
  have h := add_equal_provenance_exact
    ⟨[1, 2, 3], [0, 0, 0], [5, 5, 5], ⟨["alice"], [0, 0, 0]⟩⟩
    ⟨[4, 4, 4], [2, 2, 2], [6, 6, 6], ⟨["alice"], [0, 0, 0]⟩⟩ rfl
  rw [h]; decide

/-- C8: for every operand pair accepted by lt or gt (equal-provenance
PhiTensor of matching length, scalar, or plain array), the result's bound
envelope is exactly all-zeros min and all-ones max, regardless of the
operands' original bounds. -/
theorem comparison_collapse_bounds (a b : NDimEntityPhiTensor) (c : ℤ)
    (xs : List ℤ)
    (hent : DataSubjectList.eqSubjects a.entities b.entities = true)
    (hlen : a.child.length = b.child.length) :
    collapsedBounds a (NDimEntityPhiTensor.lt a (.phi b)) ∧
    collapsedBounds a (NDimEntityPhiTensor.gt a (.phi b)) ∧
    collapsedBounds a (NDimEntityPhiTensor.lt a (.scalar c)) ∧
    collapsedBounds a (NDimEntityPhiTensor.gt a (.scalar c)) ∧
    collapsedBounds a (NDimEntityPhiTensor.lt a (.array xs)) ∧
    collapsedBounds a (NDimEntityPhiTensor.gt a (.array xs)) := by
  refine ⟨⟨⟨bcastZip (fun x y => if x < y then 1 else 0) a.child b.child,
            a.min_vals.map (fun x => x * 0),
            a.max_vals.map (fun x => x * 0 + 1), a.entities⟩,
           by simp [NDimEntityPhiTensor.lt, hent, hlen],
           map_mul_zero _, map_mul_zero_add_one _⟩,
         ⟨⟨bcastZip (fun x y => if y < x then 1 else 0) a.child b.child,
           a.min_vals.map (fun x => x * 0),
           a.max_vals.map (fun x => x * 0 + 1), a.entities⟩,
          by simp [NDimEntityPhiTensor.gt, hent, hlen],
          map_mul_zero _, map_mul_zero_add_one _⟩,
         ⟨⟨a.child.map (fun x => if x < c then 1 else 0),
           a.min_vals.map (fun x => x * 0),
           a.max_vals.map (fun x => x * 0 + 1), a.entities⟩,
          rfl, map_mul_zero _, map_mul_zero_add_one _⟩,
         ⟨⟨a.child.map (fun x => if c < x then 1 else 0),
           a.min_vals.map (fun x => x * 0),
           a.max_vals.map (fun x => x * 0 + 1), a.entities⟩,
          rfl, map_mul_zero _, map_mul_zero_add_one _⟩,
         ⟨⟨bcastZip (fun x y => if x < y then 1 else 0) a.child xs,
           a.min_vals.map (fun x => x * 0),
           a.max_vals.map (fun x => x * 0 + 1), a.entities⟩,
          rfl, map_mul_zero _, map_mul_zero_add_one _⟩,
         ⟨⟨bcastZip (fun x y => if y < x then 1 else 0) a.child xs,
           a.min_vals.map (fun x => x * 0),
           a.max_vals.map (fun x => x * 0 + 1), a.entities⟩,
          rfl, map_mul_zero _, map_mul_zero_add_one _⟩⟩

/-- Witness for C8 at concrete equal-provenance operands, a scalar and a
plain array. -/
theorem comparison_collapse_bounds_witness :
    collapsedBounds ⟨[1, 2], [0, 0], [5, 5], ⟨["alice"], [0, 0]⟩⟩
      (NDimEntityPhiTensor.lt ⟨[1, 2], [0, 0], [5, 5], ⟨["alice"], [0, 0]⟩⟩
        (.phi ⟨[4, 4], [2, 2], [6, 6], ⟨["alice"], [0, 0]⟩⟩)) ∧
    collapsedBounds ⟨[1, 2], [0, 0], [5, 5], ⟨["alice"], [0, 0]⟩⟩
      (NDimEntityPhiTensor.gt ⟨[1, 2], [0, 0], [5, 5], ⟨["alice"], [0, 0]⟩⟩
        (.phi ⟨[4, 4], [2, 2], [6, 6], ⟨["alice"], [0, 0]⟩⟩)) ∧
    collapsedBounds ⟨[1, 2], [0, 0], [5, 5], ⟨["alice"], [0, 0]⟩⟩
      (NDimEntityPhiTensor.lt ⟨[1, 2], [0, 0], [5, 5], ⟨["alice"], [0, 0]⟩⟩
        (.scalar 3)) ∧
    collapsedBounds ⟨[1, 2], [0, 0], [5, 5], ⟨["alice"], [0, 0]⟩⟩
      (NDimEntityPhiTensor.gt ⟨[1, 2], [0, 0], [5, 5], ⟨["alice"], [0, 0]⟩⟩
        (.scalar 3)) ∧
    collapsedBounds ⟨[1, 2], [0, 0], [5, 5], ⟨["alice"], [0, 0]⟩⟩
      (NDimEntityPhiTensor.lt ⟨[1, 2], [0, 0], [5, 5], ⟨["alice"], [0, 0]⟩⟩
        (.array [3, 1])) ∧
    collapsedBounds ⟨[1, 2], [0, 0], [5, 5], ⟨["alice"], [0, 0]⟩⟩
      (NDimEntityPhiTensor.gt ⟨[1, 2], [0, 0], [5, 5], ⟨["alice"], [0, 0]⟩⟩
        (.array [3, 1])) :=
  comparison_collapse_bounds
    ⟨[1, 2], [0, 0], [5, 5], ⟨["alice"], [0, 0]⟩⟩
    ⟨[4, 4], [2, 2], [6, 6], ⟨["alice"], [0, 0]⟩⟩ 3 [3, 1]
    (by decide) (by decide)

/-- C9 (code bug): on an unsupported operand, `__mul__` and `__lt__` execute
`return NotImplementedError`, handing the exception class back as a value to
the caller instead of raising it, while the structurally identical `__gt__`
raises it as the spec describes. -/
theorem mul_lt_return_error_value (a : NDimEntityPhiTensor) (d : String) :
    NDimEntityPhiTensor.mul a (.unsupported d) =
      .returnedValue .notImplementedError ∧
    NDimEntityPhiTensor.lt a (.unsupported d) =
      .returnedValue .notImplementedError ∧
    NDimEntityPhiTensor.gt a (.unsupported d) =
      .raised .notImplementedError :=
  ⟨rfl, rfl, rfl⟩

/-- C10: `dot` with a plain array returns a PhiTensor whose min and max
envelopes are both set to `self.child.dot(other)` — the exact payload
result — rather than being propagated from the declared envelopes. -/
theorem dot_array_bounds_equal_payload (a : NDimEntityPhiTensor)
    (xs : List ℤ) :
    NDimEntityPhiTensor.dot a (.array xs) =
      .phi ⟨dot1d a.child xs, dot1d a.child xs, dot1d a.child xs,
            a.entities⟩ := rfl
